import Mathlib

/-!
# Verification of the playwbot adapter layer

Shallow embedding of `src/playbot/Playbot.py` and `src/playbot/src/browser.py`.

The repository is a thin keyword adapter over an external browser-automation
engine (Playwright).  The engine itself is an out-of-scope collaborator, so it
is modelled as an `Engine` record of abstract response functions, and every
wrapper operation is embedded as a pure function that returns both the list of
engine calls it issues (its trace) and the value it returns to the caller.
Python exceptions are embedded with `Except PyError`.

The files `src/playbot/src/page.py` and `src/playbot/src/context.py` are not
present under `src/`; the page-wrapper operations that some claims need are
modelled from the specification and are marked `Modelled from the spec:` in
their doc comments.  Everything else is translated directly from the source.
-/

set_option autoImplicit false

/-- An engine-level browser process handle, opaque to the adapter layer. -/
structure Browser where
  id : Nat
deriving DecidableEq, Repr

/-- An engine-level page/tab handle, opaque to the adapter layer. -/
structure Page where
  id : Nat
deriving DecidableEq, Repr

/-- An engine-level located-DOM-node handle (`playwright.sync_api.ElementHandle`),
opaque to the adapter layer. -/
structure ElementHandle where
  id : Nat
deriving DecidableEq, Repr

/-- An engine-level frame reference, opaque to the adapter layer. -/
structure Frame where
  id : Nat
deriving DecidableEq, Repr

/-- The load states accepted by `wait_for_load_state`
(`Literal["load", "domcontentloaded", "networkidle"]` in the source). -/
inductive LoadState
  | load
  | domcontentloaded
  | networkidle
deriving DecidableEq, Repr

/-- The element states accepted by `wait_for_element_state`
(`Literal["visible", "hidden", "enabled", "disabled", "editable"]` in the source). -/
inductive ElementState
  | visible
  | hidden
  | enabled
  | disabled
  | editable
deriving DecidableEq, Repr

/-- An opaque Python value relayed from the engine; `pyNone` embeds Python `None`. -/
inductive PyValue
  | pyNone
  | pyBool (b : Bool)
  | pyStr (s : String)
  | pyInt (n : Int)
deriving DecidableEq, Repr

/-- Python exceptions that can surface through the adapter layer. -/
inductive PyError
  | runtimeError (msg : String)
  | typeError (msg : String)
  | attributeError (msg : String)
  | assertionError (msg : String)
  | timeoutError (msg : String)
deriving DecidableEq, Repr

/-- One invocation of an underlying engine operation.  Traces of these values
record which engine-scoped variant each keyword actually invoked, which is how
the dispatch claims are stated. -/
inductive EngineCall
  | playwrightStart
  | launchChromium
  | launchFirefox
  | launchWebkit
  | browserClose (b : Browser)
  | pageClick (p : Page) (selector : Option String)
  | elementClick (e : ElementHandle)
  | pageIsVisible (p : Page) (selector : Option String) (timeout : Option Nat)
  | elementIsVisible (e : ElementHandle)
  | pageQuerySelector (p : Page) (selector : String)
  | elementQuerySelector (e : ElementHandle) (selector : String)
  | pageQuerySelectorAll (p : Page) (selector : String)
  | elementQuerySelectorAll (e : ElementHandle) (selector : String)
  | pageWaitForSelector (p : Page) (selector : String)
  | elementWaitForSelector (e : ElementHandle) (selector : String)
  | elementWaitForElementState (e : ElementHandle) (state : ElementState)
  | pageWaitForLoadState (p : Page) (state : Option LoadState) (timeout : Option Nat)
  | pageWaitForTimeout (p : Page) (timeout : Nat)
  | pageFrame (p : Page) (name : Option String) (url : Option String)
deriving DecidableEq, Repr

/-- Outcome of an engine-level wait: either the awaited condition was
satisfied within the timeout, or the engine timed out. -/
inductive WaitOutcome
  | satisfied
  | timedOut
deriving DecidableEq, Repr

/-- The external browser-automation engine, modelled as abstract response
functions (the spec places the engine itself out of scope; the adapter only
invokes it and relays inputs and outputs). -/
structure Engine where
  chromiumLaunch : Browser
  firefoxLaunch : Browser
  webkitLaunch : Browser
  pageClickResult : Page → Option String → PyValue
  elementClickResult : ElementHandle → PyValue
  pageIsVisibleResult : Page → Option String → Option Nat → Bool
  elementIsVisibleResult : ElementHandle → Bool
  pageQuerySelectorResult : Page → String → Option ElementHandle
  elementQuerySelectorResult : ElementHandle → String → Option ElementHandle
  pageQuerySelectorAllResult : Page → String → List ElementHandle
  elementQuerySelectorAllResult : ElementHandle → String → List ElementHandle
  pageWaitForSelectorResult : Page → String → Except PyError (Option ElementHandle)
  elementWaitForSelectorResult : ElementHandle → String → Except PyError (Option ElementHandle)
  elementWaitForElementStateResult : ElementHandle → ElementState → Except PyError Unit
  pageWaitForLoadStateOutcome : Page → Option LoadState → Option Nat → WaitOutcome
  pageWaitForTimeoutResult : Page → Nat → PyValue
  pageFrameResult : Page → Option String → Option String → Option Frame

/-- The engine-scoped element operation `ElementHandle.click` (engine boundary:
it is invoked and its result relayed verbatim). `**kwargs` are forwarded
verbatim in the source and are elided here, as no claim depends on them. -/
def ElementHandle.click (engine : Engine) (self : ElementHandle) :
    List EngineCall × PyValue :=
  ([EngineCall.elementClick self], engine.elementClickResult self)

/-- The engine-scoped element operation `ElementHandle.is_visible` (engine
boundary). -/
def ElementHandle.is_visible (engine : Engine) (self : ElementHandle) :
    List EngineCall × Bool :=
  ([EngineCall.elementIsVisible self], engine.elementIsVisibleResult self)

/-- The engine-scoped element operation `ElementHandle.query_selector` (engine
boundary). -/
def ElementHandle.query_selector (engine : Engine) (self : ElementHandle)
    (selector : String) : List EngineCall × Option ElementHandle :=
  ([EngineCall.elementQuerySelector self selector],
   engine.elementQuerySelectorResult self selector)

/-- The engine-scoped element operation `ElementHandle.query_selector_all`
(engine boundary). -/
def ElementHandle.query_selector_all (engine : Engine) (self : ElementHandle)
    (selector : String) : List EngineCall × List ElementHandle :=
  ([EngineCall.elementQuerySelectorAll self selector],
   engine.elementQuerySelectorAllResult self selector)

/-- The engine-scoped element operation `ElementHandle.wait_for_selector`
(engine boundary); `**kwargs` elided. -/
def ElementHandle.wait_for_selector (engine : Engine) (self : ElementHandle)
    (selector : String) : List EngineCall × Except PyError (Option ElementHandle) :=
  ([EngineCall.elementWaitForSelector self selector],
   engine.elementWaitForSelectorResult self selector)

/-- The engine-scoped element operation `ElementHandle.wait_for_element_state`
(engine boundary); `**kwargs` elided. -/
def ElementHandle.wait_for_element_state (engine : Engine) (self : ElementHandle)
    (state : ElementState) : List EngineCall × Except PyError Unit :=
  ([EngineCall.elementWaitForElementState self state],
   engine.elementWaitForElementStateResult self state)

/-! ## Browser wrapper (`src/playbot/src/browser.py`) -/

/-- The wrapper class `PlaybotBrowser`: it holds the launched engine browser
handle in its `browser` attribute. -/
structure PlaybotBrowser where
  browser : Browser
deriving DecidableEq, Repr

/-- The message of the `RuntimeError` raised by `PlaybotBrowser._start_browser`
for an unsupported name (the source message quotes the three names; the quote
characters are elided here). -/
def browserSelectErrorMsg : String :=
  "You have to select either chromium, firefox, or webkit as browser."

/-- `PlaybotBrowser._start_browser(browser, **kwargs)`: an `if/elif` chain over
the three supported names.  Each supported branch starts the engine driver
(`sync_playwright().start()`) and launches the corresponding backend, returning
the engine browser handle; any other name raises `RuntimeError` without
invoking the engine at all.  `**kwargs` (launch options, forwarded verbatim)
are elided, as no claim depends on them. -/
def PlaybotBrowser._start_browser (engine : Engine) (browser : String) :
    Except PyError (List EngineCall × Browser) :=
  if browser = "chromium" then
    Except.ok ([EngineCall.playwrightStart, EngineCall.launchChromium],
               engine.chromiumLaunch)
  else if browser = "firefox" then
    Except.ok ([EngineCall.playwrightStart, EngineCall.launchFirefox],
               engine.firefoxLaunch)
  else if browser = "webkit" then
    Except.ok ([EngineCall.playwrightStart, EngineCall.launchWebkit],
               engine.webkitLaunch)
  else
    Except.error (PyError.runtimeError browserSelectErrorMsg)

/-- `PlaybotBrowser.__init__(browser, **kwargs)`: stores the result of
`_start_browser` in `self.browser`.  If `_start_browser` raises, the exception
propagates and no instance is constructed. -/
def PlaybotBrowser.construct (engine : Engine) (browser : String) :
    Except PyError (List EngineCall × PlaybotBrowser) :=
  match PlaybotBrowser._start_browser engine browser with
  | Except.ok (calls, b) => Except.ok (calls, ⟨b⟩)
  | Except.error e => Except.error e

/-- The `@staticmethod PlaybotBrowser.close_browser(browser)`: returns
`browser.close()`, i.e. invokes the engine's browser close operation
(which returns `None`). -/
def PlaybotBrowser.close_browser (_engine : Engine) (browser : Browser) :
    List EngineCall × PyValue :=
  ([EngineCall.browserClose browser], PyValue.pyNone)

/-- Python call semantics for a staticmethod of arity one: a staticmethod is
not bound to the instance it is accessed through, so the argument list at the
call site is passed as-is, and any count other than one raises `TypeError`
before the function body runs. -/
def callStatic1 {α β : Type} (fname : String) (f : α → β) (args : List α) :
    Except PyError β :=
  match args with
  | [a] => Except.ok (f a)
  | [] => Except.error (PyError.typeError
      (fname ++ "() missing 1 required positional argument: browser"))
  | _ => Except.error (PyError.typeError
      (fname ++ "() takes 1 positional argument but more were given"))

/-! ## Page wrapper (modelled: `src/playbot/src/page.py` is not under `src/`) -/

/-- The wrapper class `PlaybotPage`: holds the engine page handle in its
`page` attribute (per the spec, the page wrapper "owns one page/tab created
from a context"). -/
structure PlaybotPage where
  page : Page
deriving DecidableEq, Repr

/-- Modelled from the spec: `PlaybotPage.click` (src/playbot/src/page.py is
missing from src/).  Per the spec's dispatch rule, the page wrapper's click is
the page-scoped engine variant, "which additionally requires/accepts a
selector string"; the engine result is relayed verbatim. -/
def PlaybotPage.click (engine : Engine) (self : PlaybotPage)
    (selector : Option String) : List EngineCall × PyValue :=
  ([EngineCall.pageClick self.page selector],
   engine.pageClickResult self.page selector)

/-- Modelled from the spec: `PlaybotPage.is_visible` (src/playbot/src/page.py
is missing from src/).  The page-scoped engine variant, taking the selector
and timeout; the engine result is relayed verbatim. -/
def PlaybotPage.is_visible (engine : Engine) (self : PlaybotPage)
    (selector : Option String) (timeout : Option Nat) : List EngineCall × Bool :=
  ([EngineCall.pageIsVisible self.page selector timeout],
   engine.pageIsVisibleResult self.page selector timeout)

/-- Modelled from the spec: `PlaybotPage.query_selector`
(src/playbot/src/page.py is missing from src/).  The page-scoped engine
variant; returns the located element or none. -/
def PlaybotPage.query_selector (engine : Engine) (self : PlaybotPage)
    (selector : String) : List EngineCall × Option ElementHandle :=
  ([EngineCall.pageQuerySelector self.page selector],
   engine.pageQuerySelectorResult self.page selector)

/-- Modelled from the spec: `PlaybotPage.query_selector_all`
(src/playbot/src/page.py is missing from src/).  The page-scoped engine
variant; returns the list of matching elements. -/
def PlaybotPage.query_selector_all (engine : Engine) (self : PlaybotPage)
    (selector : String) : List EngineCall × List ElementHandle :=
  ([EngineCall.pageQuerySelectorAll self.page selector],
   engine.pageQuerySelectorAllResult self.page selector)

/-- Modelled from the spec: `PlaybotPage.wait_for_selector`
(src/playbot/src/page.py is missing from src/).  The page-scoped engine
variant; `**kwargs` elided. -/
def PlaybotPage.wait_for_selector (engine : Engine) (self : PlaybotPage)
    (selector : String) : List EngineCall × Except PyError (Option ElementHandle) :=
  ([EngineCall.pageWaitForSelector self.page selector],
   engine.pageWaitForSelectorResult self.page selector)

/-- The message of the error raised when `frame` is given both criteria or
neither. -/
def frameArgsErrorMsg : String :=
  "you have to provide exactly one of name or url"

/-- The message of the engine-level timeout error surfaced by a wait. -/
def timeoutErrorMsg : String :=
  "Timeout exceeded"

/-- Modelled from the spec: `PlaybotPage.frame(page, name=None, url=None)`
(src/playbot/src/page.py is missing from src/).  Per the spec, "exactly one of
name or urlMatcher selection criteria is expected; returns a frame reference
or none": supplying exactly one criterion forwards it to the engine's frame
lookup, while supplying both or neither is a violated expectation and raises. -/
def PlaybotPage.frame (engine : Engine) (page : Page)
    (name : Option String) (url : Option String) :
    Except PyError (List EngineCall × Option Frame) :=
  match name, url with
  | some n, none =>
      Except.ok ([EngineCall.pageFrame page (some n) none],
                 engine.pageFrameResult page (some n) none)
  | none, some u =>
      Except.ok ([EngineCall.pageFrame page none (some u)],
                 engine.pageFrameResult page none (some u))
  | _, _ =>
      Except.error (PyError.assertionError frameArgsErrorMsg)

/-- Modelled from the spec: `PlaybotPage.wait_for_load_state(page, state, timeout)`
(src/playbot/src/page.py is missing from src/).  Forwards the state and
timeout to the engine's load-state wait; the call returns when the state is
satisfied and raises a timeout error otherwise. -/
def PlaybotPage.wait_for_load_state (engine : Engine) (page : Page)
    (state : Option LoadState) (timeout : Option Nat) :
    List EngineCall × Except PyError Unit :=
  ([EngineCall.pageWaitForLoadState page state timeout],
   match engine.pageWaitForLoadStateOutcome page state timeout with
   | WaitOutcome.satisfied => Except.ok ()
   | WaitOutcome.timedOut => Except.error (PyError.timeoutError timeoutErrorMsg))

/-- Modelled from the spec: `PlaybotPage.wait_for_timeout(page, timeout)`
(src/playbot/src/page.py is missing from src/).  "Unconditional blocking
delay": forwards to the engine's wait and relays the engine's return value. -/
def PlaybotPage.wait_for_timeout (engine : Engine) (page : Page)
    (timeout : Nat) : List EngineCall × PyValue :=
  ([EngineCall.pageWaitForTimeout page timeout],
   engine.pageWaitForTimeoutResult page timeout)

/-! ## Dispatch façade (`src/playbot/Playbot.py`) -/

/-- The `Playbot` library instance state: `__init__` sets
`self._selected_browser = browser` and `self._playbot_browser = None`.
These are the only two instance attributes of the façade. -/
structure Playbot where
  _selected_browser : String
  _playbot_browser : Option PlaybotBrowser
deriving DecidableEq, Repr

/-- `Playbot.__init__(browser="chromium")`. -/
def Playbot.construct (browser : String) : Playbot :=
  ⟨browser, none⟩

/-- `Playbot.start_browser(**kwargs)`:
`self._playbot_browser = PlaybotBrowser(self._selected_browser, **kwargs)`.
The constructor call on the right-hand side is evaluated first; the attribute
is assigned only if it returns, and if it raises, the exception propagates
with the façade state untouched.  Result: the façade state after the call, the
normal-or-exceptional outcome, and the engine calls issued. -/
def Playbot.start_browser (engine : Engine) (self : Playbot) :
    Playbot × Except PyError Unit × List EngineCall :=
  match PlaybotBrowser.construct engine self._selected_browser with
  | Except.ok (calls, pb) =>
      ({ self with _playbot_browser := some pb }, Except.ok (), calls)
  | Except.error e => (self, Except.error e, [])

/-- `Playbot.close_browser()`: the source line is
`self._playbot_browser.close_browser()`.  If no browser is held, attribute
access on `None` raises `AttributeError`.  Otherwise the arity-one
staticmethod `PlaybotBrowser.close_browser` is invoked with the empty
argument list (the source passes no argument), via `callStatic1`. -/
def Playbot.close_browser (engine : Engine) (self : Playbot) :
    List EngineCall × Except PyError PyValue :=
  match self._playbot_browser with
  | none =>
      ([], Except.error (PyError.attributeError
        "NoneType object has no attribute close_browser"))
  | some _pb =>
      match callStatic1 "close_browser"
          (fun b => PlaybotBrowser.close_browser engine b) [] with
      | Except.ok (calls, v) => (calls, Except.ok v)
      | Except.error e => ([], Except.error e)

/-- A handle argument that is annotated `Union[PlaybotPage, ElementHandle]`
in the source. -/
inductive Handle
  | page (p : PlaybotPage)
  | element (e : ElementHandle)
deriving DecidableEq, Repr

/-- `Playbot.click(handle, selector=None, **kwargs)`:
`if isinstance(handle, PlaybotPage): return handle.click(selector, **kwargs)`,
`return handle.click(**kwargs)` — in the element branch the selector argument
is not passed on at all. -/
def Playbot.click (engine : Engine) (handle : Handle)
    (selector : Option String) : List EngineCall × PyValue :=
  match handle with
  | Handle.page p => PlaybotPage.click engine p selector
  | Handle.element e => ElementHandle.click engine e

/-- `Playbot.is_visible(handle, selector=None, timeout=None)`:
`if isinstance(handle, PlaybotPage): return handle.is_visible(selector=selector, timeout=timeout)`,
`return handle.is_visible()` — the element branch passes neither the selector
nor the timeout. -/
def Playbot.is_visible (engine : Engine) (handle : Handle)
    (selector : Option String) (timeout : Option Nat) :
    List EngineCall × Bool :=
  match handle with
  | Handle.page p => PlaybotPage.is_visible engine p selector timeout
  | Handle.element e => ElementHandle.is_visible engine e

/-- `Playbot.query_selector(handle, selector)`:
`return handle.query_selector(selector)` — Python attribute lookup dispatches
on the dynamic class of `handle`, so a `PlaybotPage` receives the page-scoped
variant and an `ElementHandle` the element-scoped one. -/
def Playbot.query_selector (engine : Engine) (handle : Handle)
    (selector : String) : List EngineCall × Option ElementHandle :=
  match handle with
  | Handle.page p => PlaybotPage.query_selector engine p selector
  | Handle.element e => ElementHandle.query_selector engine e selector

/-- `Playbot.query_selector_all(handle, selector)`:
`return handle.query_selector_all(selector)`, dispatching on the dynamic
class of `handle` as in `query_selector`. -/
def Playbot.query_selector_all (engine : Engine) (handle : Handle)
    (selector : String) : List EngineCall × List ElementHandle :=
  match handle with
  | Handle.page p => PlaybotPage.query_selector_all engine p selector
  | Handle.element e => ElementHandle.query_selector_all engine e selector

/-- `Playbot.wait_for_selector(handle, selector, **kwargs)`:
`return handle.wait_for_selector(selector, **kwargs)`, dispatching on the
dynamic class of `handle`. -/
def Playbot.wait_for_selector (engine : Engine) (handle : Handle)
    (selector : String) : List EngineCall × Except PyError (Option ElementHandle) :=
  match handle with
  | Handle.page p => PlaybotPage.wait_for_selector engine p selector
  | Handle.element e => ElementHandle.wait_for_selector engine e selector

/-- `Playbot.wait_for_element_state(handle, state, **kwargs)`: the handle
parameter is annotated `ElementHandle` only (no `Union` with `PlaybotPage`),
and the body is `return handle.wait_for_element_state(state, **kwargs)` — the
element-scoped variant, unconditionally. -/
def Playbot.wait_for_element_state (engine : Engine) (handle : ElementHandle)
    (state : ElementState) : List EngineCall × Except PyError Unit :=
  ElementHandle.wait_for_element_state engine handle state

/-- `Playbot.frame(page, name=None, url=None)`:
`return page.frame(page.page, name=name, url=url)` — both criteria are
forwarded to the page wrapper unchanged. -/
def Playbot.frame (engine : Engine) (page : PlaybotPage)
    (name : Option String) (url : Option String) :
    Except PyError (List EngineCall × Option Frame) :=
  PlaybotPage.frame engine page.page name url

/-- The default value of the `state` parameter in the source signature of
`Playbot.wait_for_load_state`:
`state: Union[Literal["load", "domcontentloaded", "networkidle"], None] = "load"`. -/
def waitForLoadStateDefault : Option LoadState :=
  some LoadState.load

/-- `Playbot.wait_for_load_state(page, state="load", timeout=None)`:
`return page.wait_for_load_state(page.page, state=state, timeout=timeout)`. -/
def Playbot.wait_for_load_state (engine : Engine) (page : PlaybotPage)
    (state : Option LoadState) (timeout : Option Nat) :
    List EngineCall × Except PyError Unit :=
  PlaybotPage.wait_for_load_state engine page.page state timeout

/-- `Playbot.wait_for_timeout(page, timeout)`: the body
`page.wait_for_timeout(page.page, timeout)` is a bare expression statement
with no `return`, so the forwarded call's result is discarded and the keyword
returns Python `None`. -/
def Playbot.wait_for_timeout (engine : Engine) (page : PlaybotPage)
    (timeout : Nat) : List EngineCall × PyValue :=
  ((PlaybotPage.wait_for_timeout engine page.page timeout).1, PyValue.pyNone)

/-- The six dispatch keywords of the façade that take a handle argument. -/
inductive DispatchKeyword
  | click
  | is_visible
  | query_selector
  | query_selector_all
  | wait_for_selector
  | wait_for_element_state
deriving DecidableEq, Repr

/-- The two kinds of handle a keyword can receive. -/
inductive HandleKind
  | pageKind
  | elementKind
deriving DecidableEq, Repr

/-- Which handle kinds each dispatch keyword accepts, read off the handle
parameter annotations in `src/playbot/Playbot.py`: `click`, `is_visible`,
`query_selector`, `query_selector_all` and `wait_for_selector` are annotated
`Union[PlaybotPage, ElementHandle]`, while `wait_for_element_state` is
annotated `ElementHandle` alone. -/
def acceptsHandle : DispatchKeyword → HandleKind → Bool
  | DispatchKeyword.wait_for_element_state, HandleKind.pageKind => false
  | _, _ => true

/-- A concrete engine used to exercise the definitions on closed inputs. -/
def testEngine : Engine where
  chromiumLaunch := ⟨1⟩
  firefoxLaunch := ⟨2⟩
  webkitLaunch := ⟨3⟩
  pageClickResult := fun _ _ => PyValue.pyNone
  elementClickResult := fun _ => PyValue.pyNone
  pageIsVisibleResult := fun _ _ _ => true
  elementIsVisibleResult := fun _ => true
  pageQuerySelectorResult := fun _ _ => none
  elementQuerySelectorResult := fun _ _ => none
  pageQuerySelectorAllResult := fun _ _ => []
  elementQuerySelectorAllResult := fun _ _ => []
  pageWaitForSelectorResult := fun _ _ => Except.ok none
  elementWaitForSelectorResult := fun _ _ => Except.ok none
  elementWaitForElementStateResult := fun _ _ => Except.ok ()
  pageWaitForLoadStateOutcome := fun _ _ _ => WaitOutcome.satisfied
  pageWaitForTimeoutResult := fun _ _ => PyValue.pyNone
  pageFrameResult := fun _ _ _ => none

/-! ## Theorems for the claims -/

/-- C1: For every call to `start_browser`, each of the three recognized
backend names launches the corresponding engine backend and leaves the
launched browser handle held in `_playbot_browser`, while any other name
raises `RuntimeError` and issues no engine call at all (no browser process is
spawned). -/
theorem start_browser_backend_dispatch (engine : Engine) (self : Playbot) :
    (self._selected_browser = "chromium" →
      Playbot.start_browser engine self =
        ({ self with _playbot_browser := some ⟨engine.chromiumLaunch⟩ },
         Except.ok (), [EngineCall.playwrightStart, EngineCall.launchChromium])) ∧
    (self._selected_browser = "firefox" →
      Playbot.start_browser engine self =
        ({ self with _playbot_browser := some ⟨engine.firefoxLaunch⟩ },
         Except.ok (), [EngineCall.playwrightStart, EngineCall.launchFirefox])) ∧
    (self._selected_browser = "webkit" →
      Playbot.start_browser engine self =
        ({ self with _playbot_browser := some ⟨engine.webkitLaunch⟩ },
         Except.ok (), [EngineCall.playwrightStart, EngineCall.launchWebkit])) ∧
    (self._selected_browser ≠ "chromium" → self._selected_browser ≠ "firefox" →
     self._selected_browser ≠ "webkit" →
      Playbot.start_browser engine self =
        (self, Except.error (PyError.runtimeError browserSelectErrorMsg), [])) := by
  refine ⟨fun h => ?_, fun h => ?_, fun h => ?_, fun h1 h2 h3 => ?_⟩ <;>
    simp [Playbot.start_browser, PlaybotBrowser.construct,
          PlaybotBrowser._start_browser, *]

/-- C1 witness: at the concrete engine `testEngine`, starting with the
supported name chromium launches chromium and holds its handle, and starting
with the unsupported name opera fails with the `RuntimeError` and issues no
engine call. -/
theorem start_browser_backend_dispatch_witness :
    Playbot.start_browser testEngine ⟨"chromium", none⟩ =
      (⟨"chromium", some ⟨testEngine.chromiumLaunch⟩⟩, Except.ok (),
       [EngineCall.playwrightStart, EngineCall.launchChromium]) ∧
    Playbot.start_browser testEngine ⟨"opera", none⟩ =
      (⟨"opera", none⟩,
       Except.error (PyError.runtimeError browserSelectErrorMsg), []) := by
  refine ⟨(start_browser_backend_dispatch testEngine ⟨"chromium", none⟩).1 rfl, ?_⟩
  exact (start_browser_backend_dispatch testEngine ⟨"opera", none⟩).2.2.2
    (by decide) (by decide) (by decide)

/-- The message of the `TypeError` raised by the zero-argument call to the
arity-one staticmethod `close_browser`. -/
def closeBrowserTypeErrorMsg : String :=
  "close_browser() missing 1 required positional argument: browser"

/-- C2 (code bug): after a successful `start_browser` the façade holds a
browser wrapper, but `Playbot.close_browser` calls the arity-one staticmethod
`PlaybotBrowser.close_browser` with no argument, so the call raises
`TypeError` and the engine's browser close operation is never invoked (the
trace is empty): the keyword does not terminate the held browser process. -/
theorem close_browser_zero_arg_call_raises (engine : Engine) (b : String)
    (pb : PlaybotBrowser) :
    Playbot.close_browser engine ⟨b, some pb⟩ =
      ([], Except.error (PyError.typeError closeBrowserTypeErrorMsg)) := by
  rfl

/-- C3: the keywords `click`, `is_visible` and `query_selector` invoke the
page-scoped engine variant (with the supplied selector) when the handle is a
page wrapper, and the element-scoped variant when it is an element handle. -/
theorem dispatch_page_vs_element_variant (engine : Engine) (p : PlaybotPage)
    (e : ElementHandle) (selOpt : Option String) (t : Option Nat) (sel : String) :
    (Playbot.click engine (Handle.page p) selOpt).1 =
      [EngineCall.pageClick p.page selOpt] ∧
    (Playbot.click engine (Handle.element e) selOpt).1 =
      [EngineCall.elementClick e] ∧
    (Playbot.is_visible engine (Handle.page p) selOpt t).1 =
      [EngineCall.pageIsVisible p.page selOpt t] ∧
    (Playbot.is_visible engine (Handle.element e) selOpt t).1 =
      [EngineCall.elementIsVisible e] ∧
    (Playbot.query_selector engine (Handle.page p) sel).1 =
      [EngineCall.pageQuerySelector p.page sel] ∧
    (Playbot.query_selector engine (Handle.element e) sel).1 =
      [EngineCall.elementQuerySelector e sel] :=
  ⟨rfl, rfl, rfl, rfl, rfl, rfl⟩

/-- C4 counterexample: the claim says every one of the six dispatch keywords
accepts a handle that may be a page wrapper, but `wait_for_element_state` is
annotated to accept an `ElementHandle` only — it does not accept a page
wrapper. -/
theorem wait_for_element_state_rejects_page_handles :
    acceptsHandle DispatchKeyword.wait_for_element_state HandleKind.pageKind
      = false := by
  decide

/-- C4 (amended): `click`, `is_visible`, `query_selector`,
`query_selector_all` and `wait_for_selector` each accept both a page wrapper
and an element handle and dispatch to the page-scoped variant for a page
wrapper and the element-scoped variant otherwise; `wait_for_element_state`
accepts only an element handle and always invokes the element-scoped
variant. -/
theorem dispatch_keyword_handle_polymorphism (engine : Engine) (p : PlaybotPage)
    (e : ElementHandle) (selOpt : Option String) (t : Option Nat) (sel : String)
    (st : ElementState) :
    (acceptsHandle DispatchKeyword.click HandleKind.pageKind = true ∧
     acceptsHandle DispatchKeyword.click HandleKind.elementKind = true ∧
     acceptsHandle DispatchKeyword.is_visible HandleKind.pageKind = true ∧
     acceptsHandle DispatchKeyword.is_visible HandleKind.elementKind = true ∧
     acceptsHandle DispatchKeyword.query_selector HandleKind.pageKind = true ∧
     acceptsHandle DispatchKeyword.query_selector HandleKind.elementKind = true ∧
     acceptsHandle DispatchKeyword.query_selector_all HandleKind.pageKind = true ∧
     acceptsHandle DispatchKeyword.query_selector_all HandleKind.elementKind = true ∧
     acceptsHandle DispatchKeyword.wait_for_selector HandleKind.pageKind = true ∧
     acceptsHandle DispatchKeyword.wait_for_selector HandleKind.elementKind = true) ∧
    ((Playbot.click engine (Handle.page p) selOpt).1 =
       [EngineCall.pageClick p.page selOpt] ∧
     (Playbot.click engine (Handle.element e) selOpt).1 =
       [EngineCall.elementClick e] ∧
     (Playbot.is_visible engine (Handle.page p) selOpt t).1 =
       [EngineCall.pageIsVisible p.page selOpt t] ∧
     (Playbot.is_visible engine (Handle.element e) selOpt t).1 =
       [EngineCall.elementIsVisible e] ∧
     (Playbot.query_selector engine (Handle.page p) sel).1 =
       [EngineCall.pageQuerySelector p.page sel] ∧
     (Playbot.query_selector engine (Handle.element e) sel).1 =
       [EngineCall.elementQuerySelector e sel] ∧
     (Playbot.query_selector_all engine (Handle.page p) sel).1 =
       [EngineCall.pageQuerySelectorAll p.page sel] ∧
     (Playbot.query_selector_all engine (Handle.element e) sel).1 =
       [EngineCall.elementQuerySelectorAll e sel] ∧
     (Playbot.wait_for_selector engine (Handle.page p) sel).1 =
       [EngineCall.pageWaitForSelector p.page sel] ∧
     (Playbot.wait_for_selector engine (Handle.element e) sel).1 =
       [EngineCall.elementWaitForSelector e sel]) ∧
    (acceptsHandle DispatchKeyword.wait_for_element_state HandleKind.pageKind
       = false ∧
     acceptsHandle DispatchKeyword.wait_for_element_state HandleKind.elementKind
       = true ∧
     (Playbot.wait_for_element_state engine e st).1 =
       [EngineCall.elementWaitForElementState e st]) := by
  exact ⟨⟨rfl, rfl, rfl, rfl, rfl, rfl, rfl, rfl, rfl, rfl⟩,
         ⟨rfl, rfl, rfl, rfl, rfl, rfl, rfl, rfl, rfl, rfl⟩,
         ⟨rfl, rfl, rfl⟩⟩

/-- C5: in the element-handle branch of `click` and `is_visible` the selector
argument is silently ignored: for any element handle and any two selector
values (including none) the keyword issues the very same element-scoped engine
call and returns the very same result, and the return types carry no
exception, so nothing is raised on account of the selector. -/
theorem element_branch_ignores_selector (engine : Engine) (e : ElementHandle)
    (s1 s2 : Option String) (t : Option Nat) :
    Playbot.click engine (Handle.element e) s1 =
      Playbot.click engine (Handle.element e) s2 ∧
    Playbot.click engine (Handle.element e) s1 =
      ([EngineCall.elementClick e], engine.elementClickResult e) ∧
    Playbot.is_visible engine (Handle.element e) s1 t =
      Playbot.is_visible engine (Handle.element e) s2 t ∧
    Playbot.is_visible engine (Handle.element e) s1 t =
      ([EngineCall.elementIsVisible e], engine.elementIsVisibleResult e) :=
  ⟨rfl, rfl, rfl, rfl⟩

/-- C6: the façade's only process-scoped state is the held browser wrapper;
a second `start_browser` with a wrapper already held leaves the only other
field `_selected_browser` unchanged, never issues the engine's browser close
for the previously held wrapper, and on success unconditionally replaces the
held wrapper with the newly started one (no guard on the old value). -/
theorem second_start_replaces_held_browser (engine : Engine) (b : String)
    (pbOld : PlaybotBrowser) :
    (Playbot.start_browser engine ⟨b, some pbOld⟩).1._selected_browser = b ∧
    EngineCall.browserClose pbOld.browser ∉
      (Playbot.start_browser engine ⟨b, some pbOld⟩).2.2 ∧
    (∀ calls pb, PlaybotBrowser.construct engine b = Except.ok (calls, pb) →
       Playbot.start_browser engine ⟨b, some pbOld⟩ =
         (⟨b, some pb⟩, Except.ok (), calls)) := by
  refine ⟨?_, ?_, ?_⟩
  · rcases hc : PlaybotBrowser.construct engine b with e | ⟨calls, pb⟩ <;>
      simp [Playbot.start_browser, hc]
  · unfold Playbot.start_browser PlaybotBrowser.construct
      PlaybotBrowser._start_browser
    by_cases h1 : b = "chromium" <;> by_cases h2 : b = "firefox" <;>
      by_cases h3 : b = "webkit" <;> simp [h1, h2, h3]
  · intro calls pb hc
    simp [Playbot.start_browser, hc]

/-- C6 witness: with a wrapper for browser 99 already held, starting again
with the configured name firefox replaces it by the newly launched firefox
handle of `testEngine`, keeps `_selected_browser` unchanged, and emits only
the driver start and the firefox launch. -/
theorem second_start_replaces_held_browser_witness :
    (Playbot.start_browser testEngine ⟨"firefox", some ⟨⟨99⟩⟩⟩).1._selected_browser
      = "firefox" ∧
    Playbot.start_browser testEngine ⟨"firefox", some ⟨⟨99⟩⟩⟩ =
      (⟨"firefox", some ⟨⟨2⟩⟩⟩, Except.ok (),
       [EngineCall.playwrightStart, EngineCall.launchFirefox]) := by
  refine ⟨(second_start_replaces_held_browser testEngine "firefox" ⟨⟨99⟩⟩).1, ?_⟩
  exact (second_start_replaces_held_browser testEngine "firefox" ⟨⟨99⟩⟩).2.2
    [EngineCall.playwrightStart, EngineCall.launchFirefox] ⟨⟨2⟩⟩ rfl

/-- C7: the `frame` keyword forwards both criteria to the page wrapper, which
expects exactly one of name or url: with exactly one criterion it returns the
engine's frame reference or none, and with both or neither it raises rather
than accepting the input. -/
theorem frame_requires_exactly_one_criterion (engine : Engine)
    (p : PlaybotPage) (n u : String) :
    Playbot.frame engine p (some n) none =
      Except.ok ([EngineCall.pageFrame p.page (some n) none],
                 engine.pageFrameResult p.page (some n) none) ∧
    Playbot.frame engine p none (some u) =
      Except.ok ([EngineCall.pageFrame p.page none (some u)],
                 engine.pageFrameResult p.page none (some u)) ∧
    Playbot.frame engine p (some n) (some u) =
      Except.error (PyError.assertionError frameArgsErrorMsg) ∧
    Playbot.frame engine p none none =
      Except.error (PyError.assertionError frameArgsErrorMsg) :=
  ⟨rfl, rfl, rfl, rfl⟩

/-- C8: invoking `wait_for_load_state` with the source's default `state`
argument forwards the basic load condition to the engine, and the call either
returns normally (state satisfied) or fails with a timeout error. -/
theorem wait_for_load_state_default_is_load (engine : Engine)
    (page : PlaybotPage) (timeout : Option Nat) :
    (Playbot.wait_for_load_state engine page waitForLoadStateDefault timeout).1 =
      [EngineCall.pageWaitForLoadState page.page (some LoadState.load) timeout] ∧
    ((Playbot.wait_for_load_state engine page waitForLoadStateDefault timeout).2 =
       Except.ok () ∨
     (Playbot.wait_for_load_state engine page waitForLoadStateDefault timeout).2 =
       Except.error (PyError.timeoutError timeoutErrorMsg)) := by
  constructor
  · rfl
  · unfold Playbot.wait_for_load_state PlaybotPage.wait_for_load_state
      waitForLoadStateDefault
    cases engine.pageWaitForLoadStateOutcome page.page (some LoadState.load)
        timeout <;> simp

/-- C9: `start_browser` is atomic on error: if constructing the browser
wrapper raises, the exception propagates and the façade state — in particular
the held-browser field — is exactly what it was before the call. -/
theorem start_browser_atomic_on_error (engine : Engine) (self : Playbot)
    (err : PyError)
    (h : PlaybotBrowser.construct engine self._selected_browser =
           Except.error err) :
    (Playbot.start_browser engine self).1 = self ∧
    (Playbot.start_browser engine self).2.1 = Except.error err := by
  simp [Playbot.start_browser, h]

/-- C9 witness: with the unsupported configured name opera and a wrapper for
browser 7 already held, `start_browser` raises the `RuntimeError` and leaves
the façade state, including the held wrapper, unchanged. -/
theorem start_browser_atomic_on_error_witness :
    (Playbot.start_browser testEngine ⟨"opera", some ⟨⟨7⟩⟩⟩).1 =
      ⟨"opera", some ⟨⟨7⟩⟩⟩ ∧
    (Playbot.start_browser testEngine ⟨"opera", some ⟨⟨7⟩⟩⟩).2.1 =
      Except.error (PyError.runtimeError browserSelectErrorMsg) :=
  start_browser_atomic_on_error testEngine ⟨"opera", some ⟨⟨7⟩⟩⟩
    (PyError.runtimeError browserSelectErrorMsg) (by rfl)

/-- C10: `wait_for_timeout` issues the forwarded engine wait but, having no
`return` statement, discards the engine's result and returns Python `None` to
its caller, for every page handle, every timeout value and every engine
response; the second conjunct records that the forwarded wrapper call itself
does relay the engine's result, so the discarding happens in the keyword. -/
theorem wait_for_timeout_discards_result (engine : Engine) (page : PlaybotPage)
    (timeout : Nat) :
    Playbot.wait_for_timeout engine page timeout =
      ([EngineCall.pageWaitForTimeout page.page timeout], PyValue.pyNone) ∧
    (PlaybotPage.wait_for_timeout engine page.page timeout).2 =
      engine.pageWaitForTimeoutResult page.page timeout :=
  ⟨rfl, rfl⟩
